import Mathlib

/-!
Verification of the DoruMake order-automation repository.

The repository ships a Next.js operator dashboard (apps/web) together with a
design document (TODO.md) and natural-language specification for the order
orchestration engine.  The dashboard code is embedded directly from the
TypeScript sources; the orchestration engine itself (lanes, retry policy,
notification throttler) is not present in the source tree, so it is modelled
from the specification, as marked on each such definition.
-/

namespace Dorumake

/-- JavaScript String.prototype.toLowerCase restricted to the ASCII range
(the only range the dashboard's status strings use), as an executable map
over the character list. -/
def jsToLowerCase (s : String) : String :=
  String.mk (s.data.map Char.toLower)

/-- Splitting accumulator for jsSplitDot: walk the characters, cutting at
every dot, like JavaScript split with a one-character separator. -/
def splitDotAux : List Char → List Char → List String
  | [], acc => [String.mk acc.reverse]
  | c :: cs, acc =>
      if c = '.' then String.mk acc.reverse :: splitDotAux cs []
      else splitDotAux cs (c :: acc)

/-- JavaScript path.split with separator dot; the empty string splits to a
one-element list holding the empty string, as in JavaScript. -/
def jsSplitDot (s : String) : List String :=
  splitDotAux s.data []

/-! Status badge component, from apps/web/src/components/StatusBadge.tsx. -/

/-- Icons used by the badge component (lucide-react icons, by name). -/
inductive BadgeIcon where
  | clock
  | loader2
  | checkCircle
  | xCircle
  | listOrdered
  deriving DecidableEq, Repr

/-- One entry of the statusConfig record in StatusBadge.tsx: a label, a CSS
class string, an icon and an optional extra icon class. -/
structure BadgeConfig where
  label : String
  className : String
  icon : BadgeIcon
  iconClass : Option String
  deriving DecidableEq, Repr

/-- The statusConfig object literal of StatusBadge.tsx, as an association
list keyed by the eight configured status strings. -/
def statusConfigList : List (String × BadgeConfig) :=
  [ ("pending", ⟨"Bekliyor", "bg-warning-100 text-warning-700 border-warning-200", .clock, none⟩),
    ("processing", ⟨"İşleniyor", "bg-primary-100 text-primary-700 border-primary-200", .loader2, some "animate-spin"⟩),
    ("completed", ⟨"Tamamlandı", "bg-success-100 text-success-700 border-success-200", .checkCircle, none⟩),
    ("failed", ⟨"Başarısız", "bg-danger-100 text-danger-700 border-danger-200", .xCircle, none⟩),
    ("queued", ⟨"Sırada", "bg-gray-100 text-gray-700 border-gray-200", .listOrdered, none⟩),
    ("cancelled", ⟨"İptal Edildi", "bg-gray-100 text-gray-700 border-gray-200", .xCircle, none⟩),
    ("processed", ⟨"İşlendi", "bg-success-100 text-success-700 border-success-200", .checkCircle, none⟩),
    ("ignored", ⟨"Göz Ardı Edildi", "bg-gray-100 text-gray-500 border-gray-200", .clock, none⟩) ]

/-- Property lookup on the statusConfig object. -/
def statusConfig (s : String) : Option BadgeConfig :=
  statusConfigList.lookup s

/-- The fallback config built inline in the StatusBadge component:
label is the raw status string, gray styling, Clock icon. -/
def defaultBadge (status : String) : BadgeConfig :=
  ⟨status, "bg-gray-100 text-gray-700 border-gray-200", .clock, none⟩

/-- The config chosen by the StatusBadge component: look up the lowercased
status; a missing entry (undefined, falsy) falls back to the default. -/
def statusBadge (status : String) : BadgeConfig :=
  (statusConfig (jsToLowerCase status)).getD (defaultBadge status)

/-- Properties every plain JavaScript object literal inherits from
Object.prototype: reading any of these keys on the statusConfig object
yields a truthy inherited value (a function, or the prototype object for
the dunder proto accessor), not undefined. -/
def objectPrototypeKeys : List String :=
  ["constructor", "hasOwnProperty", "isPrototypeOf", "propertyIsEnumerable",
   "toLocaleString", "toString", "valueOf", "__proto__",
   "__defineGetter__", "__defineSetter__", "__lookupGetter__", "__lookupSetter__"]

/-- Outcome of the JavaScript property read on the statusConfig object:
an own entry of the object literal, a truthy value inherited from
Object.prototype, or undefined. -/
inductive ConfigAccess where
  | own (cfg : BadgeConfig)
  | inherited
  | missing
  deriving DecidableEq, Repr

/-- The full JavaScript property lookup statusConfig[key], prototype chain
included: own keys first, then the properties inherited from
Object.prototype, then undefined. -/
def statusConfigAccess (key : String) : ConfigAccess :=
  match statusConfigList.lookup key with
  | some cfg => .own cfg
  | none => if key ∈ objectPrototypeKeys then .inherited else .missing

/-- What the StatusBadge component renders: a badge from some config, or a
render-time throw. -/
inductive RenderOutcome where
  | badge (cfg : BadgeConfig)
  | throwsUndefinedIcon
  deriving DecidableEq, Repr

/-- The StatusBadge component on an arbitrary status string, with the
prototype chain of the statusConfig object modelled: an own entry renders
its badge and a miss renders the default fallback, but a truthy value
inherited from Object.prototype skips the fallback (the or-operator keeps
the truthy value), leaving label, className and icon undefined, and React
throws rendering the undefined icon element. -/
def statusBadgeRender (status : String) : RenderOutcome :=
  match statusConfigAccess (jsToLowerCase status) with
  | .own cfg => .badge cfg
  | .inherited => .throwsUndefinedIcon
  | .missing => .badge (defaultBadge status)

/-! Status colors, from apps/web/src/lib/utils.ts (getStatusColor). -/

/-- The statusColors object literal inside getStatusColor. -/
def statusColorsList : List (String × String) :=
  [ ("pending", "badge-warning"),
    ("processing", "badge-primary"),
    ("completed", "badge-success"),
    ("failed", "badge-danger"),
    ("queued", "badge-primary") ]

/-- getStatusColor from utils.ts: lookup on the lowercased status, with
badge-primary as the fallback for a missing (falsy) entry. -/
def getStatusColor (status : String) : String :=
  (statusColorsList.lookup (jsToLowerCase status)).getD "badge-primary"

/-! Translation lookup, from apps/web/src/lib/i18n/index.ts and the
LanguageProvider in src/unnamed/part_001.  JavaScript values reached while
walking the translation tree are modelled by an inductive type: undefined,
strings and plain objects. -/

/-- JavaScript values involved in the translation lookup. -/
inductive Js where
  | undefined : Js
  | str : String → Js
  | obj : List (String × Js) → Js

/-- JavaScript truthiness for the modelled values: undefined is falsy, a
string is truthy when non-empty, an object is always truthy. -/
def Js.truthy : Js → Bool
  | .undefined => false
  | .str s => s != ""
  | .obj _ => true

/-- JavaScript property access acc[part] for the modelled values: field
lookup on objects (undefined when missing), single-character access on
strings at canonical numeric indices, undefined otherwise. -/
def Js.index : Js → String → Js
  | .undefined, _ => .undefined
  | .obj fields, part => (fields.lookup part).getD .undefined
  | .str s, part =>
      match part.toNat? with
      | some i =>
          if part = toString i then
            match s.data.get? i with
            | some c => .str (String.mk [c])
            | none => .undefined
          else .undefined
      | none => .undefined

/-- getNestedValue from i18n/index.ts:
path.split mapped through reduce with acc && acc[part], then result || path. -/
def getNestedValue (obj : Js) (path : String) : Js :=
  let r := (jsSplitDot path).foldl
    (fun acc part => if acc.truthy then acc.index part else acc) obj
  if r.truthy then r else .str path

/-- The t function of the LanguageProvider (src/unnamed/part_001) called
without interpolation params: a plain getNestedValue lookup on the active
locale's translation tree. -/
def translate (translations : Js) (key : String) : Js :=
  getNestedValue translations key

/-- A small concrete translation tree of the shape the locale JSON files
use, for exercising the lookup on concrete keys. -/
def sampleTranslations : Js :=
  Js.obj [("common", Js.obj [("save", Js.str "Kaydet"), ("cancel", Js.str "İptal")])]

/-! Auth utilities, from src/unnamed/part_008 (authService). -/

/-- The two localStorage slots used by authService: the stored token and the
stored expiry timestamp (milliseconds); none models an absent key. -/
structure AuthStorage where
  token : Option String
  expiry : Option Int
  deriving DecidableEq, Repr

namespace authService

/-- authService.logout: remove both localStorage keys. -/
def logout (_st : AuthStorage) : AuthStorage := ⟨none, none⟩

/-- authService.setToken: store the token and an expiry timestamp set five
minutes (300 s) before the nominal expiry, all in milliseconds. -/
def setToken (token : String) (expiresIn : Int) (now : Int) : AuthStorage :=
  { token := some token, expiry := some (now + (expiresIn - 300) * 1000) }

/-- authService.getToken: when an expiry is stored and the current time is
past it, log out and return null; otherwise return the stored token.  The
result pairs the possibly-cleared storage with the returned value. -/
def getToken (st : AuthStorage) (now : Int) : AuthStorage × Option String :=
  match st.expiry with
  | some e => if now > e then (logout st, none) else (st, st.token)
  | none => (st, st.token)

/-- authService.isAuthenticated: whether getToken returns a token. -/
def isAuthenticated (st : AuthStorage) (now : Int) : Bool :=
  (getToken st now).2.isSome

end authService

/-! Orchestration engine.  The engine (Failure Classifier, Retry Policy
Engine, Supplier Lane, Notification Throttler) is specified in spec sections
4.1 to 4.5 and sketched in TODO.md, but its implementation is not part of the
source tree; the definitions below are therefore modelled from the
specification. -/

/-- Modelled from the spec: the closed failure category set of spec section
4.3 (the Failure Classifier is missing from the sources). -/
inductive Category where
  | LOGIN_FAILED
  | SAP_CONFIRM_FAILED
  | ELEMENT_NOT_FOUND
  | NETWORK_ERROR
  | SESSION_EXPIRED
  | TIMEOUT
  | UNEXPECTED_POPUP
  | VALIDATION_ERROR
  | UNSUPPORTED_SUPPLIER
  deriving DecidableEq, Repr

/-- Modelled from the spec: the Max attempts column of the section 4.3
policy table (the Retry Policy Engine is missing from the sources).
SESSION_EXPIRED and UNEXPECTED_POPUP are resolved inside an attempt and have
no attempt budget (the table lists them as not applicable). -/
def maxAttempts : Category → Option Nat
  | .LOGIN_FAILED => some 3
  | .SAP_CONFIRM_FAILED => some 3
  | .ELEMENT_NOT_FOUND => some 3
  | .NETWORK_ERROR => some 3
  | .SESSION_EXPIRED => none
  | .TIMEOUT => some 2
  | .UNEXPECTED_POPUP => none
  | .VALIDATION_ERROR => some 1
  | .UNSUPPORTED_SUPPLIER => some 0

/-- Modelled from the spec: the Backoff column of the section 4.3 policy
table, matching the wait_seconds lists of RETRY_CONFIG in TODO.md; one delay
per retry the category grants.  VALIDATION_ERROR and UNSUPPORTED_SUPPLIER
grant no retry, so their lists are empty. -/
def backoffSeconds : Category → List Nat
  | .LOGIN_FAILED => [5, 15, 30]
  | .SAP_CONFIRM_FAILED => [5, 15, 30]
  | .ELEMENT_NOT_FOUND => [2, 5, 10]
  | .NETWORK_ERROR => [30, 30, 30]
  | .TIMEOUT => [2, 5]
  | _ => []

/-- Decision of the Retry Policy Engine for one classified failure. -/
inductive RetryDecision where
  | retry (delaySeconds : Nat)
  | giveUp
  deriving DecidableEq, Repr

/-- Modelled from the spec: the Retry Policy Engine (missing from the
sources).  An order that has already been granted k retries for the failing
category retries again with the k-th configured backoff delay; once the
category's delays are exhausted the order fails terminally. -/
def retryPolicy (c : Category) (retriesUsed : Nat) : RetryDecision :=
  match (backoffSeconds c)[retriesUsed]? with
  | some d => .retry d
  | none => .giveUp

/-- Modelled from the spec: a short human-readable label per category, used
when the worker builds the terminal error message of a failed order. -/
def categoryLabel : Category → String
  | .LOGIN_FAILED => "Giriş başarısız"
  | .SAP_CONFIRM_FAILED => "SAP onayı başarısız"
  | .ELEMENT_NOT_FOUND => "Sayfa öğesi bulunamadı"
  | .NETWORK_ERROR => "Ağ hatası"
  | .SESSION_EXPIRED => "Oturum süresi doldu"
  | .TIMEOUT => "Zaman aşımı"
  | .UNEXPECTED_POPUP => "Beklenmeyen açılır pencere"
  | .VALIDATION_ERROR => "Doğrulama hatası"
  | .UNSUPPORTED_SUPPLIER => "Desteklenmeyen tedarikçi"

/-- Modelled from the spec: the final error message a terminally failed
order carries (spec section 7 requires it non-empty and human-readable); the
category label prefixes the raw driver detail when one exists. -/
def failureMessage (c : Category) (raw : String) : String :=
  if raw = "" then categoryLabel c else categoryLabel c ++ ": " ++ raw

/-- Order lifecycle states of the spec section 4.2 state machine. -/
inductive OrderStatus where
  | pending
  | queued
  | processing
  | completed
  | failed
  | cancelled
  deriving DecidableEq, Repr

/-- Modelled from the spec: the Order Store record for one order (the store
is missing from the sources).  attempts counts the retries granted so far;
lastRetryCategory is the category that last triggered a retry, lastFailure
the category of the most recent classified failure. -/
structure Order where
  id : Nat
  status : OrderStatus
  attempts : Nat
  lastRetryCategory : Option Category
  lastFailure : Option Category
  errorMessage : Option String
  deriving DecidableEq, Repr

/-- Terminal outcome of one driver attempt, as reported by a Portal Driver:
full success, or a classified FailureEvent with its raw detail. -/
inductive AttemptResult where
  | success
  | failure (c : Category) (raw : String)
  deriving DecidableEq, Repr

/-- Observable events of one Supplier Lane, in order of occurrence. -/
inductive LaneEvent where
  | attemptStarted (id : Nat) (retriesUsed : Nat)
  | completed (id : Nat)
  | retryScheduled (id : Nat) (delaySeconds : Nat)
  | failedTerminally (id : Nat)
  deriving DecidableEq, Repr

/-- Modelled from the spec: the state of one Supplier Lane: its FIFO queue
of order ids, the Order Store restricted to this lane, and the event trace
recorded so far. -/
structure LaneState where
  queue : List Nat
  store : List Order
  events : List LaneEvent
  deriving DecidableEq, Repr

/-- Point update of one order in the store, by id. -/
def updateOrder (store : List Order) (id : Nat) (f : Order → Order) : List Order :=
  store.map (fun o => if o.id = id then f o else o)

/-- Modelled from the spec: one iteration of the Supplier Lane worker loop
of section 4.2 (missing from the sources).  The head order is attempted via
the driver oracle (a function from order id and retries-used to the
attempt's terminal outcome); on success the order completes; on a classified
failure the Retry Policy Engine either re-enqueues the order at the tail of
the same lane's queue with one more retry granted, or marks it terminally
failed with a non-empty error message. -/
def laneStep (driver : Nat → Nat → AttemptResult) (s : LaneState) : LaneState :=
  match s.queue with
  | [] => s
  | id :: rest =>
    match s.store.find? (fun o => o.id == id) with
    | none => { s with queue := rest }
    | some o =>
      match driver id o.attempts with
      | .success =>
          { queue := rest
            store := updateOrder s.store id (fun o2 => { o2 with status := .completed })
            events := s.events ++ [.attemptStarted id o.attempts, .completed id] }
      | .failure c raw =>
          match retryPolicy c o.attempts with
          | .retry d =>
              { queue := rest ++ [id]
                store := updateOrder s.store id (fun o2 =>
                  { o2 with status := .queued, attempts := o2.attempts + 1,
                            lastRetryCategory := some c, lastFailure := some c })
                events := s.events ++ [.attemptStarted id o.attempts, .retryScheduled id d] }
          | .giveUp =>
              { queue := rest
                store := updateOrder s.store id (fun o2 =>
                  { o2 with status := .failed, lastFailure := some c,
                            errorMessage := some (failureMessage c raw) })
                events := s.events ++ [.attemptStarted id o.attempts, .failedTerminally id] }

/-- Run the lane worker for n dequeue iterations. -/
def runLane (driver : Nat → Nat → AttemptResult) : Nat → LaneState → LaneState
  | 0, s => s
  | n + 1, s => runLane driver n (laneStep driver s)

/-- Initial lane state for a list of freshly enqueued orders: everything
queued, no attempt consumed, no failure recorded. -/
def initLane (ids : List Nat) : LaneState :=
  { queue := ids
    store := ids.map (fun i => ⟨i, .queued, 0, none, none, none⟩)
    events := [] }

/-- Modelled from the spec: the operator manual-retry action of section 6
(the backend behind POST /api/orders/id/retry is missing from the sources):
re-enqueue a failed order, resetting its attempt count to zero; undefined
for orders in any other status. -/
def manualRetry (o : Order) : Option Order :=
  if o.status = .failed then
    some { o with status := .queued, attempts := 0, errorMessage := none }
  else none

/-- The retry-button gate of the order pages (apps/web/src/app pages render
the Yeniden Dene button under the guard order.status === failed). -/
def retryButtonVisible (status : String) : Bool :=
  status == "failed"

/-- Modelled from the spec: the lowercase status strings the API serves to
the dashboard for each lifecycle state. -/
def statusString : OrderStatus → String
  | .pending => "pending"
  | .queued => "queued"
  | .processing => "processing"
  | .completed => "completed"
  | .failed => "failed"
  | .cancelled => "cancelled"

/-! Notification Throttler, modelled from spec section 4.4. -/

/-- Length of the throttle window in seconds (one hour). -/
def throttleWindowSeconds : Nat := 3600

/-- Maximum notifications delivered per category inside one window. -/
def throttleMaxPerWindow : Nat := 3

/-- Modelled from the spec: the NotificationThrottleState record of the data
model (missing from the sources): window start time, count of notifications
sent in the window, and count of suppressed calls. -/
structure ThrottleState where
  windowStart : Nat
  count : Nat
  suppressed : Nat
  deriving DecidableEq, Repr

/-- Result of one notify call: the updated per-category state, whether the
notification was delivered, and an optional N-suppressed summary emitted on
window reset. -/
structure NotifyResult where
  state : ThrottleState
  delivered : Bool
  summary : Option Nat
  deriving DecidableEq, Repr

/-- Modelled from the spec: the notify contract of section 4.4 for one
category's state (the Notification Throttler is missing from the sources).
A call after the window has elapsed resets the window, emits the pending
N-suppressed summary if any, and is delivered; a call inside the window is
delivered while fewer than three were sent, and suppressed and counted
otherwise. -/
def notify (s : ThrottleState) (t : Nat) : NotifyResult :=
  if t ≥ s.windowStart + throttleWindowSeconds then
    { state := ⟨t, 1, 0⟩, delivered := true,
      summary := if s.suppressed > 0 then some s.suppressed else none }
  else if s.count < throttleMaxPerWindow then
    { state := ⟨s.windowStart, s.count + 1, s.suppressed⟩, delivered := true, summary := none }
  else
    { state := ⟨s.windowStart, s.count, s.suppressed + 1⟩, delivered := false, summary := none }

/-- Modelled from the spec: notify lifted to the per-category throttle map,
updating only the called category's state. -/
def notifyFor (m : Category → ThrottleState) (c : Category) (t : Nat) :
    (Category → ThrottleState) × Bool × Option Nat :=
  let r := notify (m c) t
  (Function.update m c r.state, r.delivered, r.summary)

/-- Fold of notifyFor over a list of call times for one category, returning
the final throttle map and the list of delivered flags, call by call. -/
def notifySeq (m : Category → ThrottleState) (c : Category) :
    List Nat → (Category → ThrottleState) × List Bool
  | [] => (m, [])
  | t :: ts =>
    let r := notifyFor m c t
    let rest := notifySeq r.1 c ts
    (rest.1, r.2.1 :: rest.2)

/-- Invariant of one stored order: the retries granted never pass the
backoff budget of the category that last triggered a retry, and a failed
order carries a non-empty error message. -/
def OrderInv (o : Order) : Prop :=
  (∀ c, o.lastRetryCategory = some c → o.attempts ≤ (backoffSeconds c).length) ∧
  (o.status = .failed → ∃ m, o.errorMessage = some m ∧ m ≠ "")

/-- Well-formedness of a lane state: order ids are unique in the store and
every stored order satisfies its invariant. -/
def LaneWF (s : LaneState) : Prop :=
  (s.store.map Order.id).Nodup ∧ ∀ o ∈ s.store, OrderInv o

/-! Sanity checks on the embedded web code, on concrete inputs. -/

example : statusBadge "queued" =
    ⟨"Sırada", "bg-gray-100 text-gray-700 border-gray-200", .listOrdered, none⟩ := by decide
example : statusBadge "UNKNOWN_X" =
    ⟨"UNKNOWN_X", "bg-gray-100 text-gray-700 border-gray-200", .clock, none⟩ := by decide
example : getNestedValue sampleTranslations "common.save" = Js.str "Kaydet" := rfl
example : getNestedValue sampleTranslations "common.missing" = Js.str "common.missing" := rfl
example : getNestedValue sampleTranslations "" = Js.str "" := rfl
example : getStatusColor "queued" = "badge-primary" := by decide

example :
    (runLane (fun _ _ => .failure .ELEMENT_NOT_FOUND "buton yok") 4 (initLane [5])).events =
      [.attemptStarted 5 0, .retryScheduled 5 2,
       .attemptStarted 5 1, .retryScheduled 5 5,
       .attemptStarted 5 2, .retryScheduled 5 10,
       .attemptStarted 5 3, .failedTerminally 5] := by decide

example :
    (runLane (fun id k => if id = 1 && k = 0 then .failure .ELEMENT_NOT_FOUND "x" else .success)
      4 (initLane [1, 2, 3])).events =
      [.attemptStarted 1 0, .retryScheduled 1 2,
       .attemptStarted 2 0, .completed 2,
       .attemptStarted 3 0, .completed 3,
       .attemptStarted 1 1, .completed 1] := by decide

example :
    (laneStep (fun id k => if id = 1 && k = 0 then .failure .ELEMENT_NOT_FOUND "x" else .success)
      (initLane [1, 2, 3])).queue = [2, 3, 1] := by decide

example :
    (runLane (fun _ _ => .failure .VALIDATION_ERROR "") 1 (initLane [7])).store =
      [⟨7, .failed, 0, none, some .VALIDATION_ERROR, some "Doğrulama hatası"⟩] := by decide

/-! Helper lemmas. -/

theorem lookup_eq_none_of_not_mem {β : Type} (l : List (String × β)) (a : String)
    (h : a ∉ l.map Prod.fst) : l.lookup a = none := by
  induction l with
  | nil => rfl
  | cons p t ih =>
    obtain ⟨k, v⟩ := p
    simp only [List.map, List.mem_cons, not_or] at h
    have hk : (a == k) = false := beq_eq_false_iff_ne.mpr h.1
    simp only [List.lookup, hk]
    exact ih h.2

theorem string_append_ne_empty (a b : String) (h : a ≠ "") : a ++ b ≠ "" := by
  intro hc
  apply h
  have hd := congrArg String.data hc
  rw [String.data_append] at hd
  have ha : a.data = [] := (List.append_eq_nil.mp hd).1
  cases a
  simp_all

theorem categoryLabel_ne_empty (c : Category) : categoryLabel c ≠ "" := by
  cases c <;> decide

theorem failureMessage_ne_empty (c : Category) (raw : String) :
    failureMessage c raw ≠ "" := by
  unfold failureMessage
  split
  · exact categoryLabel_ne_empty c
  · exact string_append_ne_empty _ _ (string_append_ne_empty _ _ (categoryLabel_ne_empty c))

theorem backoff_length_le_maxAttempts (c : Category) (m : Nat)
    (h : maxAttempts c = some m) : (backoffSeconds c).length ≤ m := by
  cases c <;> simp [maxAttempts, backoffSeconds] at h ⊢ <;> omega

theorem updateOrder_map_id (store : List Order) (id : Nat) (f : Order → Order)
    (hf : ∀ o, (f o).id = o.id) :
    (updateOrder store id f).map Order.id = store.map Order.id := by
  unfold updateOrder
  rw [List.map_map]
  apply List.map_congr_left
  intro o _
  by_cases h : o.id = id <;> simp [h, hf]

theorem updateOrder_nodup (store : List Order) (id : Nat) (f : Order → Order)
    (hf : ∀ o, (f o).id = o.id) (h : (store.map Order.id).Nodup) :
    ((updateOrder store id f).map Order.id).Nodup := by
  rw [updateOrder_map_id store id f hf]
  exact h

theorem mem_updateOrder {store : List Order} {id : Nat} {f : Order → Order} {o2 : Order}
    (h : o2 ∈ updateOrder store id f) :
    ∃ o ∈ store, o2 = if o.id = id then f o else o := by
  unfold updateOrder at h
  obtain ⟨o, ho, rfl⟩ := List.mem_map.mp h
  exact ⟨o, ho, rfl⟩

theorem laneStep_wf (driver : Nat → Nat → AttemptResult) (s : LaneState)
    (h : LaneWF s) : LaneWF (laneStep driver s) := by
  obtain ⟨q, store, events⟩ := s
  obtain ⟨hnd, hinv⟩ := h
  cases q with
  | nil => exact ⟨hnd, hinv⟩
  | cons id rest =>
    simp only [laneStep]
    cases hfind : store.find? (fun o => o.id == id) with
    | none => exact ⟨hnd, hinv⟩
    | some o =>
      dsimp only
      have hmem : o ∈ store := List.mem_of_find?_eq_some hfind
      have hoid : o.id = id := by
        have := List.find?_some hfind
        simpa using this
      cases hdrv : driver id o.attempts with
      | success =>
        dsimp only
        refine ⟨?_, ?_⟩
        · exact updateOrder_nodup store id _ (fun o2 => rfl) hnd
        · intro o2 ho2
          obtain ⟨o₀, h₀, rfl⟩ := mem_updateOrder ho2
          by_cases hi : o₀.id = id
          · rw [if_pos hi]
            exact ⟨(hinv o₀ h₀).1, fun hst => nomatch hst⟩
          · rw [if_neg hi]
            exact hinv o₀ h₀
      | failure c raw =>
        dsimp only
        cases hpol : retryPolicy c o.attempts with
        | retry d =>
          dsimp only
          have hlt : o.attempts < (backoffSeconds c).length := by
            by_contra hge
            push_neg at hge
            have hnone : (backoffSeconds c)[o.attempts]? = none :=
              List.getElem?_eq_none hge
            simp [retryPolicy, hnone] at hpol
          refine ⟨?_, ?_⟩
          · exact updateOrder_nodup store id _ (fun o2 => rfl) hnd
          · intro o2 ho2
            obtain ⟨o₀, h₀, rfl⟩ := mem_updateOrder ho2
            by_cases hi : o₀.id = id
            · rw [if_pos hi]
              have ho₀ : o₀ = o := List.inj_on_of_nodup_map hnd h₀ hmem (by rw [hi, hoid])
              subst ho₀
              refine ⟨?_, fun hst => nomatch hst⟩
              intro c' hc'
              have : c = c' := by injection hc'
              subst this
              exact hlt
            · rw [if_neg hi]
              exact hinv o₀ h₀
        | giveUp =>
          dsimp only
          refine ⟨?_, ?_⟩
          · exact updateOrder_nodup store id _ (fun o2 => rfl) hnd
          · intro o2 ho2
            obtain ⟨o₀, h₀, rfl⟩ := mem_updateOrder ho2
            by_cases hi : o₀.id = id
            · rw [if_pos hi]
              exact ⟨(hinv o₀ h₀).1,
                fun _ => ⟨failureMessage c raw, rfl, failureMessage_ne_empty c raw⟩⟩
            · rw [if_neg hi]
              exact hinv o₀ h₀

theorem runLane_wf (driver : Nat → Nat → AttemptResult) (n : Nat) (s : LaneState)
    (h : LaneWF s) : LaneWF (runLane driver n s) := by
  induction n generalizing s with
  | zero => exact h
  | succ k ih => exact ih _ (laneStep_wf driver s h)

theorem initLane_wf (ids : List Nat) (h : ids.Nodup) : LaneWF (initLane ids) := by
  refine ⟨?_, ?_⟩
  · have hmap : (initLane ids).store.map Order.id = ids := by
      unfold initLane
      rw [List.map_map]
      calc (ids.map (Order.id ∘ fun i =>
              (⟨i, .queued, 0, none, none, none⟩ : Order))) = ids.map id :=
              List.map_congr_left (fun i _ => rfl)
        _ = ids := List.map_id ids
    rw [hmap]
    exact h
  · intro o ho
    simp only [initLane, List.mem_map] at ho
    obtain ⟨i, _, rfl⟩ := ho
    exact ⟨fun c hc => (nomatch hc), fun hst => nomatch hst⟩

/-! Claim theorems. -/

/-- C1: for every order and every failure category, the order's attempt
count never exceeds the maximum attempts configured for the category that
last triggered a retry (LOGIN_FAILED 3, SAP_CONFIRM_FAILED 3,
ELEMENT_NOT_FOUND 3, NETWORK_ERROR 3, TIMEOUT 2, VALIDATION_ERROR 1,
UNSUPPORTED_SUPPLIER 0), and once the failing category's bound is reached a
further failure moves the order to terminal failed, so no order retries
indefinitely. -/
theorem attempt_count_bounded_by_category_max :
    (∀ (driver : Nat → Nat → AttemptResult) (ids : List Nat) (n : Nat),
        ids.Nodup →
        ∀ o ∈ (runLane driver n (initLane ids)).store,
          ∀ c m, o.lastRetryCategory = some c → maxAttempts c = some m →
            o.attempts ≤ m) ∧
    (∀ (driver : Nat → Nat → AttemptResult) (s : LaneState) (id : Nat)
        (rest : List Nat) (o : Order) (c : Category) (raw : String) (m : Nat),
        s.queue = id :: rest →
        s.store.find? (fun o2 => o2.id == id) = some o →
        driver id o.attempts = .failure c raw →
        maxAttempts c = some m → m ≤ o.attempts →
        ∀ o2 ∈ (laneStep driver s).store, o2.id = id → o2.status = .failed) := by
  constructor
  · intro driver ids n hids o ho c m hc hm
    have hwf := runLane_wf driver n (initLane ids) (initLane_wf ids hids)
    exact ((hwf.2 o ho).1 c hc).trans (backoff_length_le_maxAttempts c m hm)
  · intro driver s id rest o c raw m hq hfind hdrv hm hle o2 ho2 hid2
    obtain ⟨q, store, events⟩ := s
    simp only at hq hfind
    subst hq
    have hgu : retryPolicy c o.attempts = .giveUp := by
      unfold retryPolicy
      rw [List.getElem?_eq_none (le_trans (backoff_length_le_maxAttempts c m hm) hle)]
    simp only [laneStep, hfind, hdrv, hgu] at ho2
    obtain ⟨o₀, h₀, rfl⟩ := mem_updateOrder ho2
    by_cases hi : o₀.id = id
    · rw [if_pos hi]
    · rw [if_neg hi] at hid2
      exact absurd hid2 hi

/-- Witness for C1: a run of four ELEMENT_NOT_FOUND failures keeps the
attempt count at its bound of three, and one TIMEOUT failure at the TIMEOUT
bound of two makes the order terminally failed. -/
theorem attempt_count_bounded_witness :
    (3 : Nat) ≤ 3 ∧
    (⟨9, .failed, 2, some .TIMEOUT, some .TIMEOUT, some "Zaman aşımı: t"⟩ : Order).status =
      .failed := by
  constructor
  · exact attempt_count_bounded_by_category_max.1
      (fun _ _ => .failure .ELEMENT_NOT_FOUND "e") [5] 4 (by decide)
      ⟨5, .failed, 3, some .ELEMENT_NOT_FOUND, some .ELEMENT_NOT_FOUND,
        some "Sayfa öğesi bulunamadı: e"⟩
      (by decide) .ELEMENT_NOT_FOUND 3 rfl rfl
  · exact attempt_count_bounded_by_category_max.2
      (fun _ _ => .failure .TIMEOUT "t")
      ⟨[9], [⟨9, .queued, 2, some .TIMEOUT, some .TIMEOUT, none⟩], []⟩ 9 []
      ⟨9, .queued, 2, some .TIMEOUT, some .TIMEOUT, none⟩ .TIMEOUT "t" 2
      rfl (by decide) rfl rfl (by decide)
      ⟨9, .failed, 2, some .TIMEOUT, some .TIMEOUT, some "Zaman aşımı: t"⟩
      (by decide) rfl

/-- C2: every order in status failed carries a non-empty, human-readable
error message: the errorMessage field of a failed order is never none and
never the empty string, for any order reachable by the lane worker. -/
theorem failed_orders_have_error_message :
    ∀ (driver : Nat → Nat → AttemptResult) (ids : List Nat) (n : Nat),
      ids.Nodup →
      ∀ o ∈ (runLane driver n (initLane ids)).store,
        o.status = .failed → ∃ m, o.errorMessage = some m ∧ m ≠ "" := by
  intro driver ids n hids o ho hst
  exact ((runLane_wf driver n (initLane ids) (initLane_wf ids hids)).2 o ho).2 hst

/-- Witness for C2: an order failed by a VALIDATION_ERROR with an empty raw
detail still carries the non-empty category label as its message. -/
theorem failed_orders_have_error_message_witness :
    ∃ m, (⟨7, .failed, 0, none, some .VALIDATION_ERROR,
        some "Doğrulama hatası"⟩ : Order).errorMessage = some m ∧ m ≠ "" :=
  failed_orders_have_error_message (fun _ _ => .failure .VALIDATION_ERROR "") [7] 1
    (by decide)
    ⟨7, .failed, 0, none, some .VALIDATION_ERROR, some "Doğrulama hatası"⟩
    (by decide) rfl

/-- C4: an order failing repeatedly with ELEMENT_NOT_FOUND is retried with
delays of exactly 2, then 5, then 10 seconds before each subsequent
attempt, and the fourth failure makes the order terminally failed: the
retry budget of ELEMENT_NOT_FOUND is then exhausted. -/
theorem element_not_found_backoff_ordering :
    (runLane (fun _ _ => .failure .ELEMENT_NOT_FOUND "buton yok") 4 (initLane [5])).events =
      [.attemptStarted 5 0, .retryScheduled 5 2,
       .attemptStarted 5 1, .retryScheduled 5 5,
       .attemptStarted 5 2, .retryScheduled 5 10,
       .attemptStarted 5 3, .failedTerminally 5] ∧
    (runLane (fun _ _ => .failure .ELEMENT_NOT_FOUND "buton yok") 4 (initLane [5])).store =
      [⟨5, .failed, 3, some .ELEMENT_NOT_FOUND, some .ELEMENT_NOT_FOUND,
        some "Sayfa öğesi bulunamadı: buton yok"⟩] ∧
    retryPolicy .ELEMENT_NOT_FOUND 3 = .giveUp := by
  refine ⟨by decide, by decide, by decide⟩

/-- C6: within one lane, an order whose failed attempt is re-queued by the
retry policy goes to the tail of the lane queue, never the head; with
orders A, B, C enqueued in that order and A failing once, B and C complete
before A's retried attempt runs. -/
theorem retried_order_requeued_at_tail :
    (∀ (driver : Nat → Nat → AttemptResult) (s : LaneState) (id : Nat)
        (rest : List Nat) (o : Order) (c : Category) (raw : String) (d : Nat),
        s.queue = id :: rest →
        s.store.find? (fun o2 => o2.id == id) = some o →
        driver id o.attempts = .failure c raw →
        retryPolicy c o.attempts = .retry d →
        (laneStep driver s).queue = rest ++ [id]) ∧
    (runLane (fun id k => if id = 1 && k = 0 then .failure .ELEMENT_NOT_FOUND "x" else .success)
        4 (initLane [1, 2, 3])).events =
      [.attemptStarted 1 0, .retryScheduled 1 2,
       .attemptStarted 2 0, .completed 2,
       .attemptStarted 3 0, .completed 3,
       .attemptStarted 1 1, .completed 1] := by
  constructor
  · intro driver s id rest o c raw d hq hfind hdrv hpol
    obtain ⟨q, store, events⟩ := s
    simp only at hq hfind
    subst hq
    simp only [laneStep, hfind, hdrv, hpol]
  · decide

/-- Witness for C6: the tail re-enqueue lemma applied to a concrete lane
state whose head order fails with a retriable category. -/
theorem retried_order_requeued_at_tail_witness :
    (laneStep (fun _ _ => .failure .NETWORK_ERROR "ağ")
        ⟨[4, 8], [⟨4, .queued, 0, none, none, none⟩, ⟨8, .queued, 0, none, none, none⟩], []⟩).queue =
      [8] ++ [4] :=
  retried_order_requeued_at_tail.1 (fun _ _ => .failure .NETWORK_ERROR "ağ")
    ⟨[4, 8], [⟨4, .queued, 0, none, none, none⟩, ⟨8, .queued, 0, none, none, none⟩], []⟩
    4 [8] ⟨4, .queued, 0, none, none, none⟩ .NETWORK_ERROR "ağ" 30
    rfl (by decide) rfl rfl

/-- C3: for every failure category, at most three notifications are
delivered within the one-hour window: starting from a fresh per-category
state, three calls inside the window are delivered, the fourth is
suppressed and counted, and a call made after the window has elapsed is
delivered again, emitting the one-suppressed summary. -/
theorem notification_throttle_window :
    ∀ (m : Category → ThrottleState) (c : Category) (t1 t2 t3 t4 t5 : Nat),
      m c = ⟨0, 0, 0⟩ →
      throttleWindowSeconds ≤ t1 → t1 ≤ t2 → t2 ≤ t3 → t3 ≤ t4 →
      t4 < t1 + throttleWindowSeconds → t1 + throttleWindowSeconds ≤ t5 →
      (notifySeq m c [t1, t2, t3, t4, t5]).2 = [true, true, true, false, true] ∧
      ((notifySeq m c [t1, t2, t3, t4]).1 c).suppressed = 1 ∧
      (notifyFor (notifySeq m c [t1, t2, t3, t4]).1 c t5).2.2 = some 1 := by
  intro m c t1 t2 t3 t4 t5 hm h1 h12 h23 h34 h4 h5
  have n1 : notify ⟨0, 0, 0⟩ t1 = ⟨⟨t1, 1, 0⟩, true, none⟩ := by
    unfold notify
    dsimp only
    rw [if_pos (show t1 ≥ 0 + throttleWindowSeconds by omega)]
    rfl
  have n2 : notify ⟨t1, 1, 0⟩ t2 = ⟨⟨t1, 2, 0⟩, true, none⟩ := by
    unfold notify
    dsimp only
    rw [if_neg (show ¬ t2 ≥ t1 + throttleWindowSeconds by omega),
      if_pos (show 1 < throttleMaxPerWindow by decide)]
  have n3 : notify ⟨t1, 2, 0⟩ t3 = ⟨⟨t1, 3, 0⟩, true, none⟩ := by
    unfold notify
    dsimp only
    rw [if_neg (show ¬ t3 ≥ t1 + throttleWindowSeconds by omega),
      if_pos (show 2 < throttleMaxPerWindow by decide)]
  have n4 : notify ⟨t1, 3, 0⟩ t4 = ⟨⟨t1, 3, 1⟩, false, none⟩ := by
    unfold notify
    dsimp only
    rw [if_neg (show ¬ t4 ≥ t1 + throttleWindowSeconds by omega),
      if_neg (show ¬ 3 < throttleMaxPerWindow by decide)]
  have n5 : notify ⟨t1, 3, 1⟩ t5 = ⟨⟨t5, 1, 0⟩, true, some 1⟩ := by
    unfold notify
    dsimp only
    rw [if_pos (show t5 ≥ t1 + throttleWindowSeconds by omega)]
    rfl
  refine ⟨?_, ?_, ?_⟩ <;>
    simp only [notifySeq, notifyFor, hm, n1, Function.update_same, n2, n3, n4, n5]

/-- Witness for C3: a fresh throttle map called on LOGIN_FAILED at times
3600, 3600, 3601, 3602 and 7200 delivers three calls, suppresses the
fourth, and delivers the fifth with a one-suppressed summary. -/
theorem notification_throttle_window_witness :
    (notifySeq (fun _ => ⟨0, 0, 0⟩) .LOGIN_FAILED [3600, 3600, 3601, 3602, 7200]).2 =
        [true, true, true, false, true] ∧
      ((notifySeq (fun _ => ⟨0, 0, 0⟩) .LOGIN_FAILED [3600, 3600, 3601, 3602]).1
          .LOGIN_FAILED).suppressed = 1 ∧
      (notifyFor (notifySeq (fun _ => ⟨0, 0, 0⟩) .LOGIN_FAILED [3600, 3600, 3601, 3602]).1
          .LOGIN_FAILED 7200).2.2 = some 1 :=
  notification_throttle_window (fun _ => ⟨0, 0, 0⟩) .LOGIN_FAILED
    3600 3600 3601 3602 7200 rfl (by decide) (by decide) (by decide) (by decide)
    (by decide) (by decide)

/-- C5: manual retry is offered and issued only for orders in status
failed: the retry button is visible exactly for failed orders, the manual
retry action re-enqueues a failed order resetting its attempt count to
zero, and for any other status no retry is issued. -/
theorem manual_retry_only_for_failed :
    ∀ o : Order,
      (retryButtonVisible (statusString o.status) = true ↔ o.status = .failed) ∧
      (o.status = .failed →
        manualRetry o =
          some { o with status := .queued, attempts := 0, errorMessage := none }) ∧
      (o.status ≠ .failed → manualRetry o = none) := by
  intro o
  obtain ⟨id, st, a, lrc, lf, em⟩ := o
  cases st <;> simp [retryButtonVisible, statusString, manualRetry]

/-- Witness for C5: a failed order shows the retry button and is re-queued
with zero attempts; a queued order is not retried. -/
theorem manual_retry_only_for_failed_witness :
    retryButtonVisible
        (statusString (⟨1, .failed, 2, none, some .TIMEOUT, some "x"⟩ : Order).status) = true ∧
      manualRetry ⟨1, .failed, 2, none, some .TIMEOUT, some "x"⟩ =
        some ⟨1, .queued, 0, none, some .TIMEOUT, none⟩ ∧
      manualRetry ⟨2, .queued, 0, none, none, none⟩ = none := by
  refine ⟨?_, ?_, ?_⟩
  · exact (manual_retry_only_for_failed ⟨1, .failed, 2, none, some .TIMEOUT, some "x"⟩).1.mpr rfl
  · exact (manual_retry_only_for_failed ⟨1, .failed, 2, none, some .TIMEOUT, some "x"⟩).2.1 rfl
  · exact (manual_retry_only_for_failed ⟨2, .queued, 0, none, none, none⟩).2.2 (by decide)

/-- C7: the dashboard renders queued and failed distinguishably: the badge
for queued has label Sırada with gray styling, the badge for failed has
label Başarısız with danger styling, and the two differ in both label and
styling (and in the getStatusColor badge class as well). -/
theorem queued_and_failed_badges_distinct :
    statusBadge "queued" =
        ⟨"Sırada", "bg-gray-100 text-gray-700 border-gray-200", .listOrdered, none⟩ ∧
      statusBadge "failed" =
        ⟨"Başarısız", "bg-danger-100 text-danger-700 border-danger-200", .xCircle, none⟩ ∧
      (statusBadge "queued").label ≠ (statusBadge "failed").label ∧
      (statusBadge "queued").className ≠ (statusBadge "failed").className ∧
      getStatusColor "queued" ≠ getStatusColor "failed" := by
  refine ⟨by decide, by decide, by decide, by decide, by decide⟩

/-- C8: after setToken at time t with lifetime expiresIn seconds, getToken
returns the token while the current time is at most t plus expiresIn minus
300 seconds, afterwards returns null and clears both storage slots; for
expiresIn at most 300 the token counts as expired at any strictly later
time, so isAuthenticated is already false.  Times are in milliseconds, as
in the source. -/
theorem token_expires_five_minutes_early :
    ∀ (tok : String) (expiresIn t now : Int),
      (now ≤ t + (expiresIn - 300) * 1000 →
        authService.getToken (authService.setToken tok expiresIn t) now =
          (authService.setToken tok expiresIn t, some tok)) ∧
      (t + (expiresIn - 300) * 1000 < now →
        authService.getToken (authService.setToken tok expiresIn t) now =
          (⟨none, none⟩, none)) ∧
      (expiresIn ≤ 300 → t < now →
        authService.getToken (authService.setToken tok expiresIn t) now =
            (⟨none, none⟩, none) ∧
          authService.isAuthenticated (authService.setToken tok expiresIn t) now = false) := by
  intro tok expiresIn t now
  refine ⟨?_, ?_, ?_⟩
  · intro h
    unfold authService.getToken authService.setToken
    dsimp only
    rw [if_neg (by omega)]
  · intro h
    unfold authService.getToken authService.setToken authService.logout
    dsimp only
    rw [if_pos (by omega)]
  · intro hexp hnow
    constructor
    · unfold authService.getToken authService.setToken authService.logout
      dsimp only
      rw [if_pos (by omega)]
    · unfold authService.isAuthenticated authService.getToken authService.setToken
      dsimp only
      rw [if_pos (by omega)]
      rfl

/-- Witness for C8: a one-hour token set at time zero is returned at
3300000 ms, gone at 3300001 ms, and a 300 second token is already expired
one millisecond after being set. -/
theorem token_expires_five_minutes_early_witness :
    authService.getToken (authService.setToken "abc" 3600 0) 3300000 =
        (authService.setToken "abc" 3600 0, some "abc") ∧
      authService.getToken (authService.setToken "abc" 3600 0) 3300001 =
        (⟨none, none⟩, none) ∧
      authService.isAuthenticated (authService.setToken "abc" 300 0) 1 = false :=
  ⟨(token_expires_five_minutes_early "abc" 3600 0 3300000).1 (by decide),
   (token_expires_five_minutes_early "abc" 3600 0 3300001).2.1 (by decide),
   ((token_expires_five_minutes_early "abc" 300 0 1).2.2 (by decide) (by decide)).2⟩

/-- C9 (amended): for every translation tree and every non-empty
dot-separated key, whenever the lookup returns a string it is non-empty:
either the non-empty translation value at the path or the key itself; the
lookup is total by construction. -/
theorem lookup_string_result_nonempty :
    ∀ (tree : Js) (path : String) (s : String),
      path ≠ "" → getNestedValue tree path = Js.str s → s ≠ "" := by
  intro tree path s hpath heq
  simp only [getNestedValue] at heq
  split at heq
  · rename_i ht
    rw [heq] at ht
    simpa [Js.truthy] using ht
  · injection heq with h
    exact h ▸ hpath

/-- Witness for C9: the unknown key common.missing resolves to the key
itself, which is non-empty. -/
theorem lookup_string_result_nonempty_witness :
    getNestedValue sampleTranslations "common.missing" = Js.str "common.missing" ∧
      "common.missing" ≠ "" :=
  ⟨rfl, lookup_string_result_nonempty sampleTranslations "common.missing" "common.missing"
      (by decide) rfl⟩

/-- Counterexample to C9 as stated: at the empty key, getNestedValue
returns the empty key itself, so the translation of the empty key is the
empty string, not a non-empty one. -/
theorem empty_key_yields_empty_string :
    getNestedValue sampleTranslations "" = Js.str "" ∧
      ¬ ∃ s, getNestedValue sampleTranslations "" = Js.str s ∧ s ≠ "" := by
  refine ⟨rfl, ?_⟩
  rintro ⟨s, hs, hne⟩
  have h0 : Js.str "" = Js.str s :=
    Eq.trans (show getNestedValue sampleTranslations "" = Js.str "" from rfl).symm hs
  injection h0 with h
  exact hne h.symm

/-- Counterexample to C10 as stated: the status constructor lies outside
the eight configured keys, yet the lookup on the lowercased status finds
the truthy constructor property inherited from Object.prototype, the
fallback is skipped, and the component throws rendering the undefined icon
instead of rendering the raw label with gray styling. -/
theorem status_badge_constructor_throws :
    jsToLowerCase "constructor" ∉ statusConfigList.map Prod.fst ∧
      statusBadgeRender "constructor" = .throwsUndefinedIcon ∧
      statusBadgeRender "constructor" ≠ .badge (defaultBadge "constructor") := by
  refine ⟨by decide, by decide, by decide⟩

/-- C10 (amended): lookup is performed on the lowercased status; any
status outside the eight configured keys whose lowercased form is not a
property inherited from Object.prototype renders without error using the
raw input string as its label and the default gray styling, while a status
whose lowercased form hits an inherited prototype property skips the
fallback and throws on the undefined icon. -/
theorem status_badge_fallback_on_unknown :
    (∀ status : String,
        jsToLowerCase status ∉ statusConfigList.map Prod.fst →
        jsToLowerCase status ∉ objectPrototypeKeys →
          statusBadgeRender status =
            .badge ⟨status, "bg-gray-100 text-gray-700 border-gray-200", .clock, none⟩) ∧
      (∀ status : String,
        jsToLowerCase status ∉ statusConfigList.map Prod.fst →
        jsToLowerCase status ∈ objectPrototypeKeys →
          statusBadgeRender status = .throwsUndefinedIcon) ∧
      statusConfigList.map Prod.fst =
        ["pending", "processing", "completed", "failed", "queued", "cancelled",
          "processed", "ignored"] ∧
      statusBadgeRender "Failed" = statusBadgeRender "failed" := by
  refine ⟨?_, ?_, by decide, by decide⟩
  · intro status h hp
    unfold statusBadgeRender statusConfigAccess
    rw [lookup_eq_none_of_not_mem statusConfigList (jsToLowerCase status) h]
    dsimp only
    rw [if_neg hp]
    rfl
  · intro status h hp
    unfold statusBadgeRender statusConfigAccess
    rw [lookup_eq_none_of_not_mem statusConfigList (jsToLowerCase status) h]
    dsimp only
    rw [if_pos hp]

/-- Witness for C10: Dispatched misses both the configured keys and the
prototype properties and renders the gray default with its raw label,
while Constructor lowercases onto the inherited constructor property and
throws. -/
theorem status_badge_fallback_on_unknown_witness :
    statusBadgeRender "Dispatched" =
        .badge ⟨"Dispatched", "bg-gray-100 text-gray-700 border-gray-200", .clock, none⟩ ∧
      statusBadgeRender "Constructor" = .throwsUndefinedIcon :=
  ⟨status_badge_fallback_on_unknown.1 "Dispatched" (by decide) (by decide),
   status_badge_fallback_on_unknown.2.1 "Constructor" (by decide) (by decide)⟩

end Dorumake
